import Mathlib

/-!
# Verification of `scripts/transform_for_bq.py`

A shallow embedding of the JSONL-to-WKT transformer: the pure record
transformer `transform_record` and the stream driver `main`, together with
theorems settling the specification claims about them.

JSON values are modelled by the inductive `Json`.  A decoded record (one
JSON object) is an ordered association list of string keys and values,
mirroring Python's insertion-ordered `dict`.  A JSON number is modelled by
the two attributes the program observes about it: whether it equals zero
(Python truthiness) and its default decimal textual rendering, which is
what f-string interpolation and `str()` produce for it.
-/

/-- A JSON number, modelled by the attributes the program observes:
zero-ness (for Python truthiness) and its default decimal textual
rendering (produced by `str()` / f-string interpolation). -/
structure JNum where
  isZero : Bool
  render : String
  deriving DecidableEq, Repr

/-- A JSON value as decoded by `json.loads`: null, booleans, numbers,
strings, arrays, and insertion-ordered objects. -/
inductive Json where
  | null : Json
  | bool : Bool → Json
  | num : JNum → Json
  | str : String → Json
  | arr : List Json → Json
  | obj : List (String × Json) → Json
  deriving Repr

/-- A decoded record: one JSON object, as an insertion-ordered mapping
from string keys to JSON values (Python `dict` semantics, keys unique). -/
abbrev Record := List (String × Json)

/-- Key membership and lookup in a record: Python's `key in record` /
`record[key]` on a `dict`, returning the value at the (first) binding of
the key, or `none` when the key is absent. -/
def getKey : List (String × Json) → String → Option Json
  | [], _ => none
  | (k, v) :: rest, key => if k = key then some v else getKey rest key

/-- Key assignment on a record: Python's `record[key] = v` on a `dict`.
An existing key keeps its position; an absent key is appended at the
end. -/
def setKey : List (String × Json) → String → Json → List (String × Json)
  | [], key, v => [(key, v)]
  | (k, w) :: rest, key, v =>
    if k = key then (key, v) :: rest else (k, w) :: setKey rest key v

/-- Python truthiness of a decoded JSON value: `None`, `False`, zero,
the empty string, the empty list and the empty dict are falsy; everything
else is truthy. -/
def truthy : Json → Bool
  | .null => false
  | .bool b => b
  | .num n => !n.isZero
  | .str s => !s.isEmpty
  | .arr l => !l.isEmpty
  | .obj l => !l.isEmpty

/-- The errors `transform_record` can raise: Python's `KeyError` (a dict
misses the looked-up key) and `TypeError` (subscripting a non-dict with a
string key). -/
inductive PyError where
  | keyError : String → PyError
  | typeError : PyError
  deriving DecidableEq, Repr

/-- Python subscripting `v[key]` of a JSON value with a string key:
on a dict it is key lookup, raising `KeyError` when the key is absent;
on any non-dict value (string, number, list, boolean, null) it raises
`TypeError`. -/
def getItem (v : Json) (key : String) : Except PyError Json :=
  match v with
  | .obj fields =>
    match getKey fields key with
    | some w => .ok w
    | none => .error (.keyError key)
  | _ => .error .typeError

/-- Python `repr()` of a decoded JSON value (used by `str()` on
containers).  String escaping of quotes and backslashes inside string
payloads is elided; no claim exercises it. -/
def pyRepr : Json → String
  | .null => "None"
  | .bool true => "True"
  | .bool false => "False"
  | .num n => n.render
  | .str s => "\x27" ++ s ++ "\x27"
  | .arr l => "[" ++ String.intercalate ", " (l.attach.map fun x => pyRepr x.1) ++ "]"
  | .obj l =>
    "\x7b" ++
      String.intercalate ", "
        (l.attach.map fun x => "\x27" ++ x.1.1 ++ "\x27: " ++ pyRepr x.1.2) ++
    "\x7d"
decreasing_by
  · simp_wf
    have := List.sizeOf_lt_of_mem x.2
    omega
  · simp_wf
    have h := List.sizeOf_lt_of_mem x.2
    have h2 : sizeOf x.1.2 < sizeOf x.1 := by
      obtain ⟨a, b⟩ := x.1
      simp
    omega

/-- Python `str()` of a decoded JSON value, as used by f-string
interpolation: a string renders as itself, everything else as its
`repr`. -/
def pyStr : Json → String
  | .str s => s
  | v => pyRepr v

/-- Embedding of `transform_record` (src/scripts/transform_for_bq.py,
lines 9-16).  If `LocationGeo` is present and truthy, look up `latitude`
and `longitude` inside it and replace the field with the WKT string
`POINT(<lon> <lat>)`; otherwise return the record unchanged.  Errors of
the two subscript operations propagate; the assignment happens only after
both lookups succeed. -/
def transform_record (record : Record) : Except PyError Record :=
  match getKey record "LocationGeo" with
  | none => .ok record
  | some v =>
    if truthy v then
      match getItem v "latitude" with
      | .error e => .error e
      | .ok lat =>
        match getItem v "longitude" with
        | .error e => .error e
        | .ok lon =>
          .ok (setKey record "LocationGeo"
            (.str ("POINT(" ++ pyStr lon ++ " " ++ pyStr lat ++ ")")))
    else .ok record

/-- A line is skipped by the driver when `line.strip()` is falsy, i.e.
the line is empty after trimming surrounding whitespace — equivalently,
when every character of the line is whitespace. -/
def isBlank (line : String) : Bool :=
  line.data.all Char.isWhitespace

/-- The errors that abort the driver: a `json.loads` failure on a line
(ParseError) or an error propagated out of `transform_record`. -/
inductive MainErr where
  | parse : MainErr
  | transform : PyError → MainErr
  deriving DecidableEq, Repr

/-- Embedding of `main` (src/scripts/transform_for_bq.py, lines 18-24).
The input stream is the list of its lines; `loads` and `dumps` stand for
the library functions `json.loads` (specialised to the spec's contract
that a line decodes to one record, with parse failure as the error case)
and `json.dumps`.  The result is the list of emitted output lines paired
with the error that aborted the run, if any: blank lines are skipped,
each remaining line is decoded, transformed and emitted in order, and the
first failure stops processing with all earlier outputs already
emitted. -/
def main (loads : String → Except Unit Record) (dumps : Record → String) :
    List String → List String × Option MainErr
  | [] => ([], none)
  | line :: rest =>
    if isBlank line then main loads dumps rest
    else
      match loads line with
      | .error _ => ([], some .parse)
      | .ok record =>
        match transform_record record with
        | .error e => ([], some (.transform e))
        | .ok t =>
          let r := main loads dumps rest
          (dumps t :: r.1, r.2)

/-! ## Helper lemmas about record lookup and assignment -/

theorem getKey_setKey_self (r : List (String × Json)) (k : String) (v : Json) :
    getKey (setKey r k v) k = some v := by
  induction r with
  | nil => simp [setKey, getKey]
  | cons p rest ih =>
    obtain ⟨k', w⟩ := p
    by_cases hk : k' = k
    · simp [setKey, getKey, hk]
    · simp [setKey, getKey, hk, ih]

theorem getKey_setKey_ne (r : List (String × Json)) (k k' : String) (v : Json)
    (h : k' ≠ k) : getKey (setKey r k v) k' = getKey r k' := by
  induction r with
  | nil => simp [setKey, getKey, Ne.symm h]
  | cons p rest ih =>
    obtain ⟨k₀, w⟩ := p
    by_cases hk : k₀ = k
    · subst hk
      simp [setKey, getKey, Ne.symm h]
    · by_cases hk' : k₀ = k'
      · simp [setKey, getKey, hk, hk', h, Ne.symm h]
      · simp [setKey, getKey, hk, hk', ih]

theorem map_fst_setKey (r : List (String × Json)) (k : String) (v w : Json)
    (h : getKey r k = some w) :
    (setKey r k v).map Prod.fst = r.map Prod.fst := by
  induction r with
  | nil => simp [getKey] at h
  | cons p rest ih =>
    obtain ⟨k₀, w₀⟩ := p
    by_cases hk : k₀ = k
    · simp [setKey, hk]
    · simp [getKey, hk] at h
      simp [setKey, hk, ih h]

theorem truthy_obj_of_ne_nil (fields : List (String × Json)) (h : fields ≠ []) :
    truthy (Json.obj fields) = true := by
  cases fields with
  | nil => exact absurd rfl h
  | cons p rest => simp [truthy]

theorem getKey_ne_nil (fields : List (String × Json)) (k : String) (v : Json)
    (h : getKey fields k = some v) : fields ≠ [] := by
  intro hnil
  subst hnil
  simp [getKey] at h

theorem pyStr_num (n : JNum) : pyStr (Json.num n) = n.render := by
  simp [pyStr, pyRepr]

/-! ## Claim C1: WKT correctness -/

/-- Claim C1: for every record whose `LocationGeo` field is the mapping
with `latitude = LAT` and `longitude = LON`, `transform_record` succeeds
and the resulting record's `LocationGeo` value is exactly the string
`POINT(LON LAT)`, longitude first, each coordinate in its default decimal
textual form. -/
theorem C1_wkt_correct (r : Record) (a b : JNum)
    (h : getKey r "LocationGeo" =
      some (Json.obj [("latitude", Json.num a), ("longitude", Json.num b)])) :
    ∃ r', transform_record r = Except.ok r' ∧
      getKey r' "LocationGeo" =
        some (Json.str ("POINT(" ++ b.render ++ " " ++ a.render ++ ")")) := by
  refine ⟨_, ?_, getKey_setKey_self r "LocationGeo" _⟩
  simp [transform_record, h, truthy, getItem, getKey, pyStr_num]

/-- Witness for C1: the spec's example record
`{"id": 1, "LocationGeo": {"latitude": 37.7749, "longitude": -122.4194}}`
transforms to `LocationGeo = "POINT(-122.4194 37.7749)"`. -/
theorem C1_wkt_correct_witness :
    getKey [("id", Json.num ⟨false, "1"⟩),
        ("LocationGeo", Json.obj [("latitude", Json.num ⟨false, "37.7749"⟩),
          ("longitude", Json.num ⟨false, "-122.4194"⟩)])] "LocationGeo" =
      some (Json.obj [("latitude", Json.num ⟨false, "37.7749"⟩),
        ("longitude", Json.num ⟨false, "-122.4194"⟩)]) ∧
    ∃ r', transform_record
        [("id", Json.num ⟨false, "1"⟩),
         ("LocationGeo", Json.obj [("latitude", Json.num ⟨false, "37.7749"⟩),
           ("longitude", Json.num ⟨false, "-122.4194"⟩)])] = Except.ok r' ∧
      getKey r' "LocationGeo" = some (Json.str "POINT(-122.4194 37.7749)") := by
  refine ⟨rfl, ?_⟩
  have h := C1_wkt_correct
    [("id", Json.num ⟨false, "1"⟩),
     ("LocationGeo", Json.obj [("latitude", Json.num ⟨false, "37.7749"⟩),
       ("longitude", Json.num ⟨false, "-122.4194"⟩)])]
    ⟨false, "37.7749"⟩ ⟨false, "-122.4194"⟩ rfl
  exact h

/-! ## Claim C2: the rewrite touches only `LocationGeo` -/

/-- Claim C2: when `LocationGeo` is present as a truthy mapping and the
transformation succeeds, only the `LocationGeo` field is replaced: the
key sequence of the record is unchanged and every other key maps to its
original value. -/
theorem C2_frame (r r' : Record) (fields : List (String × Json))
    (hv : getKey r "LocationGeo" = some (Json.obj fields))
    (ht : truthy (Json.obj fields) = true)
    (h : transform_record r = Except.ok r') :
    r'.map Prod.fst = r.map Prod.fst ∧
      ∀ k, k ≠ "LocationGeo" → getKey r' k = getKey r k := by
  simp only [transform_record, hv, ht, if_true] at h
  cases hla : getKey fields "latitude" with
  | none => simp [getItem, hla] at h
  | some la =>
    cases hlo : getKey fields "longitude" with
    | none => simp [getItem, hla, hlo] at h
    | some lo =>
      simp [getItem, hla, hlo] at h
      subst h
      exact ⟨map_fst_setKey r _ _ _ hv, fun k hk => getKey_setKey_ne r _ k _ hk⟩

/-- Witness for C2: transforming the C1-style record keeps the key `id`
bound to its original value and the key sequence unchanged. -/
theorem C2_frame_witness :
    getKey [("id", Json.str "x"),
        ("LocationGeo", Json.obj [("latitude", Json.num ⟨false, "1.0"⟩),
          ("longitude", Json.num ⟨false, "2.0"⟩)])] "LocationGeo" =
      some (Json.obj [("latitude", Json.num ⟨false, "1.0"⟩),
        ("longitude", Json.num ⟨false, "2.0"⟩)]) ∧
    truthy (Json.obj [("latitude", Json.num ⟨false, "1.0"⟩),
      ("longitude", Json.num ⟨false, "2.0"⟩)]) = true ∧
    transform_record [("id", Json.str "x"),
        ("LocationGeo", Json.obj [("latitude", Json.num ⟨false, "1.0"⟩),
          ("longitude", Json.num ⟨false, "2.0"⟩)])] =
      Except.ok [("id", Json.str "x"), ("LocationGeo", Json.str "POINT(2.0 1.0)")] ∧
    ([("id", Json.str "x"), ("LocationGeo", Json.str "POINT(2.0 1.0)")].map
        (Prod.fst (β := Json)) =
      [("id", Json.str "x"),
        ("LocationGeo", Json.obj [("latitude", Json.num ⟨false, "1.0"⟩),
          ("longitude", Json.num ⟨false, "2.0"⟩)])].map Prod.fst ∧
      ∀ k, k ≠ "LocationGeo" →
        getKey [("id", Json.str "x"), ("LocationGeo", Json.str "POINT(2.0 1.0)")] k =
          getKey [("id", Json.str "x"),
            ("LocationGeo", Json.obj [("latitude", Json.num ⟨false, "1.0"⟩),
              ("longitude", Json.num ⟨false, "2.0"⟩)])] k) := by
  refine ⟨rfl, rfl, ?_, ?_⟩
  · simp [transform_record, truthy, getItem, getKey, setKey, pyStr_num]
  · exact C2_frame _ _ _ rfl rfl
      (by simp [transform_record, truthy, getItem, getKey, setKey, pyStr_num])

/-! ## Claim C3: absent or null `LocationGeo` passes through unchanged -/

/-- Claim C3: a record with no `LocationGeo` key, or whose `LocationGeo`
value is null, is returned by `transform_record` completely unchanged. -/
theorem C3_passthrough (r : Record)
    (h : getKey r "LocationGeo" = none ∨ getKey r "LocationGeo" = some Json.null) :
    transform_record r = Except.ok r := by
  rcases h with h | h
  · simp [transform_record, h]
  · simp [transform_record, h, truthy]

/-- Witness for C3: the record `{"id": 3}` (no `LocationGeo`). -/
theorem C3_passthrough_witness :
    (getKey [("id", Json.num ⟨false, "3"⟩)] "LocationGeo" = none ∨
      getKey [("id", Json.num ⟨false, "3"⟩)] "LocationGeo" = some Json.null) ∧
    transform_record [("id", Json.num ⟨false, "3"⟩)] =
      Except.ok [("id", Json.num ⟨false, "3"⟩)] :=
  ⟨Or.inl rfl, C3_passthrough [("id", Json.num ⟨false, "3"⟩)] (Or.inl rfl)⟩

/-! ## Claim C6: missing coordinate key fails with a key-lookup error -/

/-- Claim C6: when `LocationGeo` is a truthy mapping lacking `latitude`
or lacking `longitude`, `transform_record` fails with a `KeyError` on one
of those two keys.  The error return carries no record: the caller
receives no partially or default-substituted record, and in the source
the assignment to `LocationGeo` is sequenced after both lookups, so the
failed call leaves the record unmodified. -/
theorem C6_missing_key_error (r : Record) (fields : List (String × Json))
    (h : getKey r "LocationGeo" = some (Json.obj fields))
    (ht : truthy (Json.obj fields) = true)
    (hmiss : getKey fields "latitude" = none ∨ getKey fields "longitude" = none) :
    ∃ k, (k = "latitude" ∨ k = "longitude") ∧
      transform_record r = Except.error (PyError.keyError k) := by
  cases hla : getKey fields "latitude" with
  | none =>
    refine ⟨"latitude", Or.inl rfl, ?_⟩
    simp [transform_record, h, ht, getItem, hla]
  | some la =>
    have hlo : getKey fields "longitude" = none := by
      rcases hmiss with hm | hm
      · simp [hla] at hm
      · exact hm
    refine ⟨"longitude", Or.inr rfl, ?_⟩
    simp [transform_record, h, ht, getItem, hla, hlo]

/-- Witness for C6: the spec's example `{"id": 4, "LocationGeo":
{"latitude": 1.0}}` (missing longitude) fails with a key error. -/
theorem C6_missing_key_error_witness :
    getKey [("id", Json.num ⟨false, "4"⟩),
        ("LocationGeo", Json.obj [("latitude", Json.num ⟨false, "1.0"⟩)])]
        "LocationGeo" =
      some (Json.obj [("latitude", Json.num ⟨false, "1.0"⟩)]) ∧
    truthy (Json.obj [("latitude", Json.num ⟨false, "1.0"⟩)]) = true ∧
    getKey [("latitude", Json.num ⟨false, "1.0"⟩)] "longitude" = none ∧
    ∃ k, (k = "latitude" ∨ k = "longitude") ∧
      transform_record [("id", Json.num ⟨false, "4"⟩),
          ("LocationGeo", Json.obj [("latitude", Json.num ⟨false, "1.0"⟩)])] =
        Except.error (PyError.keyError k) :=
  ⟨rfl, rfl, rfl,
    C6_missing_key_error _ [("latitude", Json.num ⟨false, "1.0"⟩)] rfl rfl
      (Or.inr rfl)⟩

/-! ## Claim C7: truthy non-mapping fails with a type error -/

/-- Claim C7: when `LocationGeo` is present and truthy but is not a
mapping (a string, a number, a nonempty array, or `true`), subscripting
it raises a `TypeError`, which `transform_record` propagates. -/
theorem C7_non_mapping_type_error (r : Record) (v : Json)
    (h : getKey r "LocationGeo" = some v) (ht : truthy v = true)
    (hnm : ∀ fields, v ≠ Json.obj fields) :
    transform_record r = Except.error PyError.typeError := by
  have hitem : getItem v "latitude" = Except.error PyError.typeError := by
    cases v with
    | obj fields => exact absurd rfl (hnm fields)
    | null => rfl
    | bool b => rfl
    | num n => rfl
    | str s => rfl
    | arr l => rfl
  simp [transform_record, h, ht, hitem]

/-- Witness for C7: a record whose `LocationGeo` is the nonempty string
`"not a dict"` makes `transform_record` fail with a type error. -/
theorem C7_non_mapping_type_error_witness :
    getKey [("LocationGeo", Json.str "not a dict")] "LocationGeo" =
      some (Json.str "not a dict") ∧
    truthy (Json.str "not a dict") = true ∧
    transform_record [("LocationGeo", Json.str "not a dict")] =
      Except.error PyError.typeError :=
  ⟨rfl, rfl,
    C7_non_mapping_type_error _ (Json.str "not a dict") rfl rfl
      (fun _ hcontra => Json.noConfusion hcontra)⟩

/-! ## Claim C9: any falsy `LocationGeo`, mapping or not, passes through -/

/-- Claim C9: a record whose `LocationGeo` key is present with any falsy
value — null, `false`, zero, the empty string, the empty array or the
empty mapping — is returned unchanged by `transform_record`, with no
error, even when that falsy value is not a mapping. -/
theorem C9_falsy_unchanged (r : Record) (v : Json)
    (h : getKey r "LocationGeo" = some v)
    (hf : v = Json.null ∨ v = Json.bool false ∨
      (∃ n, v = Json.num n ∧ n.isZero = true) ∨
      v = Json.str "" ∨ v = Json.arr [] ∨ v = Json.obj []) :
    transform_record r = Except.ok r := by
  have ht : truthy v = false := by
    rcases hf with rfl | rfl | ⟨n, rfl, hz⟩ | rfl | rfl | rfl <;>
      simp [truthy, String.isEmpty_iff, *]
  simp [transform_record, h, ht]

/-- Witness for C9: a record whose `LocationGeo` is the number `0` (a
falsy non-mapping) is returned unchanged. -/
theorem C9_falsy_unchanged_witness :
    getKey [("LocationGeo", Json.num ⟨true, "0"⟩)] "LocationGeo" =
      some (Json.num ⟨true, "0"⟩) ∧
    transform_record [("LocationGeo", Json.num ⟨true, "0"⟩)] =
      Except.ok [("LocationGeo", Json.num ⟨true, "0"⟩)] :=
  ⟨rfl,
    C9_falsy_unchanged _ (Json.num ⟨true, "0"⟩) rfl
      (Or.inr (Or.inr (Or.inl ⟨⟨true, "0"⟩, rfl, rfl⟩)))⟩

/-! ## Claim C10: the transformation is not idempotent -/

/-- Claim C10: on a record whose `LocationGeo` is a mapping carrying
`latitude` and `longitude`, `transform_record` succeeds, but applying it
again to the result fails with a `TypeError`: the first application left
`LocationGeo` as a truthy non-mapping string. -/
theorem C10_not_idempotent (r : Record) (fields : List (String × Json))
    (la lo : Json)
    (h : getKey r "LocationGeo" = some (Json.obj fields))
    (hla : getKey fields "latitude" = some la)
    (hlo : getKey fields "longitude" = some lo) :
    ∃ r', transform_record r = Except.ok r' ∧
      transform_record r' = Except.error PyError.typeError := by
  have hne : fields ≠ [] := getKey_ne_nil fields "latitude" la hla
  have ht := truthy_obj_of_ne_nil fields hne
  refine ⟨setKey r "LocationGeo"
    (Json.str ("POINT(" ++ pyStr lo ++ " " ++ pyStr la ++ ")")), ?_, ?_⟩
  · simp [transform_record, h, ht, getItem, hla, hlo]
  · have hg := getKey_setKey_self r "LocationGeo"
      (Json.str ("POINT(" ++ pyStr lo ++ " " ++ pyStr la ++ ")"))
    have hemp : ("POINT(" ++ pyStr lo ++ " " ++ pyStr la ++ ")").isEmpty = false := by
      rw [Bool.eq_false_iff]
      intro hemp
      rw [String.isEmpty_iff] at hemp
      have h2 := congrArg String.length hemp
      simp [String.length_append] at h2
      have h6 : "POINT(".length = 6 := rfl
      omega
    simp [transform_record, hg, truthy, hemp, getItem]

/-- Witness for C10: transforming `{"LocationGeo": {"latitude": 1.5,
"longitude": 2.5}}` succeeds once and fails with a type error when
applied a second time. -/
theorem C10_not_idempotent_witness :
    getKey [("LocationGeo", Json.obj [("latitude", Json.num ⟨false, "1.5"⟩),
        ("longitude", Json.num ⟨false, "2.5"⟩)])] "LocationGeo" =
      some (Json.obj [("latitude", Json.num ⟨false, "1.5"⟩),
        ("longitude", Json.num ⟨false, "2.5"⟩)]) ∧
    ∃ r', transform_record [("LocationGeo",
        Json.obj [("latitude", Json.num ⟨false, "1.5"⟩),
          ("longitude", Json.num ⟨false, "2.5"⟩)])] = Except.ok r' ∧
      transform_record r' = Except.error PyError.typeError :=
  ⟨rfl,
    C10_not_idempotent _ [("latitude", Json.num ⟨false, "1.5"⟩),
        ("longitude", Json.num ⟨false, "2.5"⟩)]
      (Json.num ⟨false, "1.5"⟩) (Json.num ⟨false, "2.5"⟩) rfl rfl rfl⟩

/-! ## Helper lemmas about the stream driver -/

/-- On an error-free run, the emitted output lines correspond pointwise,
in order, to the non-blank input lines: each non-blank line decodes and
transforms successfully and its output is the encoding of the transformed
record. -/
theorem main_ok_forall2 (loads : String → Except Unit Record)
    (dumps : Record → String) (input : List String)
    (h : (main loads dumps input).2 = none) :
    List.Forall₂
      (fun line out => ∃ r t, loads line = Except.ok r ∧
        transform_record r = Except.ok t ∧ out = dumps t)
      (input.filter (fun l => !isBlank l)) (main loads dumps input).1 := by
  induction input with
  | nil => simp [main]
  | cons line rest ih =>
    by_cases hb : isBlank line
    · simp only [main, hb, if_true] at h ⊢
      simpa [List.filter_cons, hb] using ih h
    · cases hl : loads line with
      | error e => simp [main, hb, hl] at h
      | ok r =>
        cases htr : transform_record r with
        | error e => simp [main, hb, hl, htr] at h
        | ok t =>
          simp only [main, hb, hl, htr, if_false, Bool.false_eq_true] at h ⊢
          rw [List.filter_cons_of_pos (by simp [hb])]
          exact List.Forall₂.cons ⟨r, t, hl, htr, rfl⟩ (ih h)

theorem length_filter_blank_add (input : List String) :
    (input.filter (fun l => !isBlank l)).length +
      (input.filter (fun l => isBlank l)).length = input.length := by
  induction input with
  | nil => simp
  | cons line rest ih =>
    by_cases hb : isBlank line <;> simp [List.filter_cons, hb] <;> omega

/-! ## Claim C4: line-count invariant -/

/-- Claim C4: on an error-free run over an input stream of N lines of
which B are blank or whitespace-only, the driver emits exactly N − B
output lines. -/
theorem C4_line_count (loads : String → Except Unit Record)
    (dumps : Record → String) (input : List String)
    (h : (main loads dumps input).2 = none) :
    (main loads dumps input).1.length =
      input.length - (input.filter (fun l => isBlank l)).length := by
  have hf := (main_ok_forall2 loads dumps input h).length_eq
  have hs := length_filter_blank_add input
  omega

/-- A sample decoder for driver witnesses: the line `bad` fails to parse,
any other line decodes to a one-field record carrying the line text. -/
def loadsX (s : String) : Except Unit Record :=
  if s = "bad" then Except.error () else Except.ok [("v", Json.str s)]

/-- A sample encoder for driver witnesses. -/
def dumpsX (r : Record) : String :=
  match getKey r "v" with
  | some (Json.str s) => "enc " ++ s
  | _ => "enc"

/-- Witness for C4: three lines, one blank, produce two output lines. -/
theorem C4_line_count_witness :
    (main loadsX dumpsX ["a", " ", "b"]).2 = none ∧
    (main loadsX dumpsX ["a", " ", "b"]).1.length =
      ["a", " ", "b"].length -
        ((["a", " ", "b"] : List String).filter (fun l => isBlank l)).length :=
  ⟨by decide, C4_line_count loadsX dumpsX ["a", " ", "b"] (by decide)⟩

/-! ## Claim C5: order preservation -/

/-- Claim C5: on an error-free run, the i-th output line is the encoding
of the transformed record decoded from the i-th non-blank input line. -/
theorem C5_order_preserved (loads : String → Except Unit Record)
    (dumps : Record → String) (input : List String)
    (h : (main loads dumps input).2 = none)
    (i : Nat) (hi : i < (main loads dumps input).1.length)
    (hj : i < (input.filter (fun l => !isBlank l)).length) :
    ∃ r t,
      loads ((input.filter (fun l => !isBlank l)).get ⟨i, hj⟩) = Except.ok r ∧
      transform_record r = Except.ok t ∧
      (main loads dumps input).1.get ⟨i, hi⟩ = dumps t := by
  have hf := main_ok_forall2 loads dumps input h
  exact hf.get hj hi

/-- Witness for C5: on input `["x", "", "y"]` the second output line (index
1) encodes the record decoded from the second non-blank line, `"y"`. -/
theorem C5_order_preserved_witness :
    ∃ r t,
      loadsX (((["x", "", "y"] : List String).filter
          (fun l => !isBlank l)).get ⟨1, by decide⟩) = Except.ok r ∧
      transform_record r = Except.ok t ∧
      (main loadsX dumpsX ["x", "", "y"]).1.get ⟨1, by decide⟩ = dumpsX t :=
  C5_order_preserved loadsX dumpsX ["x", "", "y"] (by decide) 1 (by decide)
    (by decide)

/-! ## Claim C8: a parse failure is fatal, after a clean prefix -/

/-- Claim C8: when all lines before a non-blank, unparsable line are
processed without error, the driver run on the whole stream emits exactly
the output lines of that clean prefix and stops with a parse error: no
output line is produced for the failing line or for any later line. -/
theorem C8_parse_fatal (loads : String → Except Unit Record)
    (dumps : Record → String) (pre rest : List String) (bad : String)
    (hpre : (main loads dumps pre).2 = none)
    (hb : isBlank bad = false)
    (hbad : loads bad = Except.error ()) :
    main loads dumps (pre ++ bad :: rest) =
      ((main loads dumps pre).1, some MainErr.parse) := by
  induction pre with
  | nil => simp [main, hb, hbad]
  | cons line pre ih =>
    by_cases hbl : isBlank line
    · simp only [main, hbl, if_true] at hpre ⊢
      exact ih hpre
    · cases hl : loads line with
      | error e => simp [main, hbl, hl] at hpre
      | ok r =>
        cases htr : transform_record r with
        | error e => simp [main, hbl, hl, htr] at hpre
        | ok t =>
          simp only [List.cons_append, List.append_eq, main, hbl, hl, htr,
            if_false, Bool.false_eq_true] at hpre ⊢
          rw [ih hpre]

/-- Witness for C8: with clean prefix `["x", ""]`, failing line `bad` and
a later line `y`, the driver emits only the prefix's single output line
and stops with a parse error. -/
theorem C8_parse_fatal_witness :
    (main loadsX dumpsX ["x", ""]).2 = none ∧
    isBlank "bad" = false ∧
    loadsX "bad" = Except.error () ∧
    main loadsX dumpsX (["x", ""] ++ "bad" :: ["y"]) =
      ((main loadsX dumpsX ["x", ""]).1, some MainErr.parse) :=
  ⟨by decide, by decide, rfl,
    C8_parse_fatal loadsX dumpsX ["x", ""] ["y"] "bad" (by decide) (by decide)
      rfl⟩
